import Mathlib

/-!
Shallow embedding of the MyFolio trading-simulation core:
the drawdown controller (`src/core/risk_engine/drawdown_control.py`),
the position sizer (`src/core/risk_engine/position_sizing.py`),
the exposure manager (`src/core/risk_engine/exposure_limits.py`),
the paper trader (`src/core/execution_engine/paper_trader.py`),
the backtester (`src/core/execution_engine/backtester.py`), and
the multi-layer entry decision (`src/core/strategy_engine/base_strategy.py`).

Prices, cash and dollar amounts are rationals (Python floats hold exact
values on the small inputs exercised here; the properties under study are
arithmetic identities, so `ℚ` is the faithful carrier).  Python dicts keyed
by symbol become insertion-ordered association lists.  Wall-clock
timestamps (`datetime.now()`) are external effects and are dropped; the
backtester bar dates become natural-number labels.
-/

/-- Association-list lookup, mirroring `symbol in self.positions` /
`self.positions[symbol]` on a Python dict (first binding wins; keys are
unique in all reachable states). -/
def pos_lookup {α : Type} (sym : String) : List (String × α) → Option α
  | [] => none
  | kv :: rest => if kv.1 = sym then some kv.2 else pos_lookup sym rest

/-- Association-list in-place value update, mirroring assignment to an
existing dict key (insertion order preserved). -/
def pos_update {α : Type} (sym : String) (v : α) (l : List (String × α)) :
    List (String × α) :=
  l.map (fun kv => if kv.1 = sym then (kv.1, v) else kv)

/-- Association-list deletion, mirroring `del self.positions[symbol]`. -/
def pos_erase {α : Type} (sym : String) (l : List (String × α)) :
    List (String × α) :=
  l.filter (fun kv => ¬ (kv.1 = sym))

/-- Python `int(x)`: truncation toward zero. -/
def truncToward0 (x : ℚ) : ℤ :=
  if 0 ≤ x then ⌊x⌋ else ⌈x⌉

namespace PositionSizer

/-- PositionSizer.calculate_shares: `0` when `price <= 0`, else
`max(1, int(position_size / price))`. -/
def calculate_shares (price position_size : ℚ) : ℤ :=
  if price ≤ 0 then 0
  else max 1 (truncToward0 (position_size / price))

end PositionSizer

namespace DrawdownController

/-- DrawdownController state.  The four threshold fields are the values
read from `config/risk.yaml` at construction (the `.get` defaults are
0.15 / 0.10 / 0.20 / 0.5); `equity_curve`, `peak_equity` and
`kill_switch_active` start as `[]` / `None` / `False`. -/
structure State where
  max_drawdown_pct : ℚ
  reduce_risk_at_drawdown : ℚ
  kill_switch_drawdown : ℚ
  reduce_risk_multiplier : ℚ
  equity_curve : List ℚ
  peak_equity : Option ℚ
  kill_switch_active : Bool
  deriving Repr, DecidableEq

/-- Fresh controller with the source `.get` default thresholds. -/
def init : State :=
  { max_drawdown_pct := 15/100
    reduce_risk_at_drawdown := 10/100
    kill_switch_drawdown := 20/100
    reduce_risk_multiplier := 1/2
    equity_curve := []
    peak_equity := none
    kill_switch_active := false }

/-- DrawdownController.update_equity: append to the curve and track the
running peak. -/
def update_equity (s : State) (equity : ℚ) : State :=
  { s with
    equity_curve := s.equity_curve ++ [equity]
    peak_equity :=
      match s.peak_equity with
      | none => some equity
      | some p => if p < equity then some equity else some p }

/-- Running maxima of a list after a given prefix maximum, mirroring
`pd.Series(...).expanding().max()`. -/
def expanding_max_from (m : ℚ) : List ℚ → List ℚ
  | [] => []
  | x :: xs => (max m x) :: expanding_max_from (max m x) xs

/-- `pd.Series(equity_curve).expanding().max()` as a list. -/
def expanding_max : List ℚ → List ℚ
  | [] => []
  | x :: xs => x :: expanding_max_from x xs

/-- Result dictionary of DrawdownController.calculate_drawdown.  The
`current_drawdown_pct` / `max_drawdown_pct` keys are absent (`none`) in the
short-curve branch, matching the dict literal at lines 66-70 of the
source; callers read them with `.get(key, 0)`. -/
structure DrawdownInfo where
  current_drawdown : ℚ
  current_drawdown_pct : Option ℚ
  max_drawdown : ℚ
  max_drawdown_pct : Option ℚ
  deriving Repr, DecidableEq

/-- DrawdownController.calculate_drawdown on an explicit curve:
`drawdown_i = equity_i - peak_i`, `drawdown_pct_i = drawdown_i / peak_i * 100`,
current values are the last entries (in absolute value), max values the
most negative entries (in absolute value). -/
def calculate_drawdown_curve (curve : List ℚ) : DrawdownInfo :=
  if curve.length < 2 then
    { current_drawdown := 0, current_drawdown_pct := none
      max_drawdown := 0, max_drawdown_pct := none }
  else
    let peak := expanding_max curve
    let drawdown := List.zipWith (fun e p => e - p) curve peak
    let drawdown_pct := List.zipWith (fun e p => (e - p) / p * 100) curve peak
    { current_drawdown := |(drawdown.getLast?).getD 0|
      current_drawdown_pct := some |(drawdown_pct.getLast?).getD 0|
      max_drawdown := |(drawdown.foldl min 0)|
      max_drawdown_pct := some |(drawdown_pct.foldl min 0)| }

/-- DrawdownController.calculate_drawdown on the internal curve. -/
def calculate_drawdown (s : State) : DrawdownInfo :=
  calculate_drawdown_curve s.equity_curve

/-- DrawdownController.check_max_drawdown: `True` on an empty curve;
otherwise `False` exactly when
the `current_drawdown_pct` entry of `calculate_drawdown` (default 0) exceeds
`self.max_drawdown_pct`. -/
def check_max_drawdown (s : State) : Bool :=
  if s.equity_curve = [] then true
  else
    let dd := ((calculate_drawdown s).current_drawdown_pct).getD 0
    if dd > s.max_drawdown_pct then false else true

/-- DrawdownController.activate_kill_switch: sets the flag (and returns
`True`) when the current drawdown pct exceeds `kill_switch_drawdown`. -/
def activate_kill_switch (s : State) : State × Bool :=
  if s.equity_curve = [] then (s, false)
  else
    let dd := ((calculate_drawdown s).current_drawdown_pct).getD 0
    if dd > s.kill_switch_drawdown then
      ({ s with kill_switch_active := true }, true)
    else (s, false)

/-- DrawdownController.is_kill_switch_active. -/
def is_kill_switch_active (s : State) : Bool :=
  s.kill_switch_active

/-- DrawdownController.reset_kill_switch (manual override). -/
def reset_kill_switch (s : State) : State :=
  { s with kill_switch_active := false }

/-- The controller calls that mutate state, other than the manual
`reset_kill_switch`: equity updates and kill-switch activation attempts. -/
inductive Event where
  | update (equity : ℚ)
  | activate
  deriving Repr, DecidableEq

/-- Apply one non-reset controller call. -/
def apply_event (s : State) : Event → State
  | Event.update e => update_equity s e
  | Event.activate => (activate_kill_switch s).1

/-- Apply a sequence of non-reset controller calls. -/
def apply_events (evs : List Event) (s : State) : State :=
  evs.foldl apply_event s

end DrawdownController

namespace ExposureManager

/-- ExposureManager state, restricted to the field the modelled call paths
read and write (`account_value`); the exposure ledger and limit checks are
not on any modelled path. -/
structure State where
  account_value : ℚ
  deriving Repr, DecidableEq

/-- ExposureManager.update_account_value. -/
def update_account_value (s : State) (v : ℚ) : State :=
  { s with account_value := v }

end ExposureManager

namespace PaperTrader

/-- One entry of `self.positions` in the paper trader.  `current_price`,
`unrealized_pnl` and `unrealized_pnl_pct` model dict keys that are absent
(`none`) until `_update_position_pnl` first writes them; note that
`_execute_buy` rebuilds the dict without them. -/
structure Position where
  shares : ℚ
  entry_price : ℚ
  current_price : Option ℚ
  unrealized_pnl : Option ℚ
  unrealized_pnl_pct : Option ℚ
  deriving Repr, DecidableEq

/-- Order side (`side` is upper-cased by the source; only the two sides
named by the interface contract are modelled). -/
inductive Side where
  | BUY
  | SELL
  deriving Repr, DecidableEq

/-- Order type; `OTHER` stands for any string other than MARKET/LIMIT. -/
inductive OrderType where
  | MARKET
  | LIMIT
  | OTHER
  deriving Repr, DecidableEq

/-- Order input dict for PaperTrader.execute_order. -/
structure Order where
  symbol : String
  side : Side
  quantity : ℚ
  otype : OrderType
  limit_price : Option ℚ
  deriving Repr, DecidableEq

/-- Execution result status strings. -/
inductive Status where
  | FILLED
  | REJECTED
  deriving Repr, DecidableEq

/-- Return dict of execute_order / _execute_buy / _execute_sell. -/
structure OrderResult where
  status : Status
  reason : Option String
  execution_price : Option ℚ
  pnl : Option ℚ
  deriving Repr, DecidableEq

/-- Entry of the `self.orders` log (timestamps dropped). -/
structure OrderRec where
  symbol : String
  side : Side
  quantity : ℚ
  price : ℚ
  amount : ℚ
  pnl : Option ℚ
  deriving Repr, DecidableEq

/-- Entry of the `self.trades` log (timestamps dropped). -/
structure TradeRec where
  symbol : String
  entry_price : ℚ
  exit_price : ℚ
  quantity : ℚ
  pnl : ℚ
  deriving Repr, DecidableEq

/-- PaperTrader state: cash, positions, order and trade logs, and the
risk-engine substates it owns. -/
structure State where
  initial_capital : ℚ
  cash : ℚ
  positions : List (String × Position)
  orders : List OrderRec
  trades : List TradeRec
  drawdown : DrawdownController.State
  exposure : ExposureManager.State
  deriving Repr, DecidableEq

/-- PaperTrader construction with starting capital. -/
def mk (initial_capital : ℚ) : State :=
  { initial_capital := initial_capital
    cash := initial_capital
    positions := []
    orders := []
    trades := []
    drawdown := DrawdownController.init
    exposure := { account_value := initial_capital } }

/-- PaperTrader.initialize_account.  `if initial_capital:` is Python
truthiness, so `None` and `0` both keep the previous capital.  Resets
cash, positions, orders, trades and the exposure-manager account value;
the drawdown controller is not touched. -/
def init_account (s : State) (initial_capital : Option ℚ) : State :=
  let cap :=
    match initial_capital with
    | some c => if c = 0 then s.initial_capital else c
    | none => s.initial_capital
  { s with
    initial_capital := cap
    cash := cap
    positions := []
    orders := []
    trades := []
    exposure := ExposureManager.update_account_value s.exposure cap }

/-- Mark used by `_calculate_equity`: the `current_price` dict
key when present, else its `entry_price`. -/
def mark (p : Position) : ℚ :=
  p.current_price.getD p.entry_price

/-- PaperTrader._calculate_equity: starts from cash and accumulates
`shares * current_price` over the positions loop. -/
def calculate_equity (s : State) : ℚ :=
  s.positions.foldl (fun acc kv => acc + kv.2.shares * mark kv.2) s.cash

/-- PaperTrader._update_position_pnl: writes `current_price`,
`unrealized_pnl` and `unrealized_pnl_pct` into an open position. -/
def update_position_pnl (s : State) (symbol : String) (current_price : ℚ) :
    State :=
  match pos_lookup symbol s.positions with
  | none => s
  | some pos =>
      let pos1 : Position :=
        { pos with
          current_price := some current_price
          unrealized_pnl := some ((current_price - pos.entry_price) * pos.shares)
          unrealized_pnl_pct :=
            some ((current_price - pos.entry_price) / pos.entry_price * 100) }
      { s with positions := pos_update symbol pos1 s.positions }

/-- PaperTrader.process_market_data: update the P&L of the open position from
the incoming price, then recompute equity and push it into the exposure
manager and the drawdown controller. -/
def process_market_data (s : State) (symbol : String) (price : ℚ) : State :=
  let s1 :=
    if (pos_lookup symbol s.positions).isSome then
      update_position_pnl s symbol price
    else s
  let equity := calculate_equity s1
  { s1 with
    exposure := ExposureManager.update_account_value s1.exposure equity
    drawdown := DrawdownController.update_equity s1.drawdown equity }

/-- PaperTrader._execute_buy. -/
def execute_buy (s : State) (symbol : String) (quantity price : ℚ) :
    OrderResult × State :=
  let cost := quantity * price
  if cost > s.cash then
    ({ status := Status.REJECTED, reason := some "Insufficient cash"
       execution_price := none, pnl := none }, s)
  else
    let cash1 := s.cash - cost
    let positions1 :=
      match pos_lookup symbol s.positions with
      | some pos =>
          let total_shares := pos.shares + quantity
          let avg_price := (pos.shares * pos.entry_price + cost) / total_shares
          pos_update symbol
            { shares := total_shares, entry_price := avg_price
              current_price := none, unrealized_pnl := none
              unrealized_pnl_pct := none }
            s.positions
      | none =>
          s.positions ++
            [(symbol,
              { shares := quantity, entry_price := price
                current_price := none, unrealized_pnl := none
                unrealized_pnl_pct := none })]
    let orders1 := s.orders ++
      [{ symbol := symbol, side := Side.BUY, quantity := quantity
         price := price, amount := cost, pnl := none }]
    ({ status := Status.FILLED, reason := none
       execution_price := some price, pnl := none },
     { s with cash := cash1, positions := positions1, orders := orders1 })

/-- PaperTrader._execute_sell. -/
def execute_sell (s : State) (symbol : String) (quantity price : ℚ) :
    OrderResult × State :=
  match pos_lookup symbol s.positions with
  | none =>
      ({ status := Status.REJECTED, reason := some "No position"
         execution_price := none, pnl := none }, s)
  | some position =>
      if quantity > position.shares then
        ({ status := Status.REJECTED, reason := some "Insufficient shares"
           execution_price := none, pnl := none }, s)
      else
        let proceeds := quantity * price
        let cash1 := s.cash + proceeds
        let remaining_shares := position.shares - quantity
        let positions1 :=
          if remaining_shares = 0 then pos_erase symbol s.positions
          else pos_update symbol { position with shares := remaining_shares }
                 s.positions
        let pnl := (price - position.entry_price) * quantity
        let orders1 := s.orders ++
          [{ symbol := symbol, side := Side.SELL, quantity := quantity
             price := price, amount := proceeds, pnl := some pnl }]
        let trades1 := s.trades ++
          [{ symbol := symbol, entry_price := position.entry_price
             exit_price := price, quantity := quantity, pnl := pnl }]
        ({ status := Status.FILLED, reason := none
           execution_price := some price, pnl := some pnl },
         { s with cash := cash1, positions := positions1
                  orders := orders1, trades := trades1 })

/-- PaperTrader.execute_order.  `current_price` is the quote returned by
the market-data collaborator, defaulting to 0 when absent; a LIMIT order
without an explicit `limit_price` defaults it to the current price. -/
def execute_order (s : State) (o : Order) (current_price : ℚ) :
    OrderResult × State :=
  match o.otype with
  | OrderType.MARKET =>
      match o.side with
      | Side.BUY => execute_buy s o.symbol o.quantity current_price
      | Side.SELL => execute_sell s o.symbol o.quantity current_price
  | OrderType.LIMIT =>
      let limit_price := o.limit_price.getD current_price
      match o.side with
      | Side.BUY =>
          if current_price ≤ limit_price then
            execute_buy s o.symbol o.quantity limit_price
          else
            ({ status := Status.REJECTED, reason := some "Limit price not met"
               execution_price := none, pnl := none }, s)
      | Side.SELL =>
          if current_price ≥ limit_price then
            execute_sell s o.symbol o.quantity limit_price
          else
            ({ status := Status.REJECTED, reason := some "Limit price not met"
               execution_price := none, pnl := none }, s)
  | OrderType.OTHER =>
      ({ status := Status.REJECTED, reason := some "Unsupported order type"
         execution_price := none, pnl := none }, s)

end PaperTrader

namespace BaseStrategy

/-- The `checks` dict built by BaseStrategy.should_enter: one boolean per
layer, in source order. -/
structure LayerChecks where
  regime : Bool
  fundamentals : Bool
  sentiment : Bool
  intermarket : Bool
  technical : Bool
  risk : Bool
  deriving Repr, DecidableEq

/-- `sum(checks.values())`: the number of passing layers. -/
def passed_count (c : LayerChecks) : ℕ :=
  c.regime.toNat + c.fundamentals.toNat + c.sentiment.toNat +
    c.intermarket.toNat + c.technical.toNat + c.risk.toNat

/-- `all(checks.values())`. -/
def all_layers (c : LayerChecks) : Bool :=
  c.regime && c.fundamentals && c.sentiment && c.intermarket &&
    c.technical && c.risk

/-- Decision step of BaseStrategy.should_enter (lines 227-232): AND-gate
when `require_all_layers`, else a fixed quorum of at least 4 of the 6
layers. -/
def enter_decision (require_all_layers : Bool) (c : LayerChecks) : Bool :=
  if require_all_layers then all_layers c
  else decide (passed_count c ≥ 4)

/-- Return dict of BaseStrategy.should_enter, restricted to the fields
the claims read. -/
structure DecisionResult where
  enter : Bool
  checks : LayerChecks
  position_size : ℚ
  deriving Repr, DecidableEq

/-- Tail of BaseStrategy.should_enter, after the six layer outcomes and
the position size have been computed: the decision and the returned
dict (`position_size` is zeroed when not entering). -/
def should_enter (require_all_layers : Bool) (c : LayerChecks)
    (position_size_dollars : ℚ) : DecisionResult :=
  let all_passed := enter_decision require_all_layers c
  { enter := all_passed
    checks := c
    position_size := if all_passed then position_size_dollars else 0 }

end BaseStrategy

namespace Backtester

/-- One price bar; only the closing price is read by the run loop.  The
pandas index timestamp becomes a natural-number label. -/
structure Bar where
  date : ℕ
  close : ℚ
  deriving Repr, DecidableEq

/-- One entry of `self.positions` in the backtester. -/
structure Position where
  shares : ℤ
  entry_price : ℚ
  entry_date : ℕ
  deriving Repr, DecidableEq

/-- Trade record kind. -/
inductive TradeType where
  | ENTRY
  | EXIT
  deriving Repr, DecidableEq

/-- Entry of the `self.trades` log.  `amount` is the ENTRY `cost`
or the EXIT `proceeds`; `pnl`, `pnl_pct` and `reason` exist only on
EXIT records. -/
structure TradeRec where
  symbol : String
  ttype : TradeType
  shares : ℤ
  price : ℚ
  amount : ℚ
  pnl : Option ℚ
  pnl_pct : Option ℚ
  reason : Option String
  date : ℕ
  deriving Repr, DecidableEq

/-- Backtester state.  `slippage_bps` holds the already-converted decimal
(`slippage_bps / 10000` from the constructor), as in the source field. -/
structure State where
  initial_capital : ℚ
  commission : ℚ
  slippage_bps : ℚ
  cash : ℚ
  positions : List (String × Position)
  trades : List TradeRec
  equity_curve : List ℚ
  dates : List ℕ
  drawdown : DrawdownController.State
  exposure : ExposureManager.State
  deriving Repr, DecidableEq

/-- Backtester construction (`commission` per share, `slippage_bps` in
basis points, converted to a decimal). -/
def mk (initial_capital commission slippage_bps : ℚ) : State :=
  { initial_capital := initial_capital
    commission := commission
    slippage_bps := slippage_bps / 10000
    cash := initial_capital
    positions := []
    trades := []
    equity_curve := [initial_capital]
    dates := []
    drawdown := DrawdownController.init
    exposure := { account_value := initial_capital } }

/-- Backtester._calculate_equity: cash plus `shares * current_price` for
every open position, accumulated over the positions loop. -/
def calculate_equity (s : State) (current_price : ℚ) : ℚ :=
  s.positions.foldl
    (fun acc kv => acc + (kv.2.shares : ℚ) * current_price) s.cash

/-- Backtester._execute_entry: slippage against the raw price, share
count from the position sizer, per-share commission; silently no-op when
`total_cost > cash`. -/
def execute_entry (s : State) (symbol : String) (price position_size : ℚ) :
    State :=
  let execution_price := price * (1 + s.slippage_bps)
  let shares := PositionSizer.calculate_shares execution_price position_size
  let cost := (shares : ℚ) * execution_price
  let commission_cost := (shares : ℚ) * s.commission
  let total_cost := cost + commission_cost
  if total_cost > s.cash then s
  else
    let entry_date := (s.dates.getLast?).getD 0
    let pos : Position :=
      { shares := shares, entry_price := execution_price
        entry_date := entry_date }
    let positions1 :=
      match pos_lookup symbol s.positions with
      | some _ => pos_update symbol pos s.positions
      | none => s.positions ++ [(symbol, pos)]
    { s with
      cash := s.cash - total_cost
      positions := positions1
      trades := s.trades ++
        [{ symbol := symbol, ttype := TradeType.ENTRY, shares := shares
           price := execution_price, amount := total_cost, pnl := none
           pnl_pct := none, reason := none, date := entry_date }] }

/-- Backtester._execute_exit: slippage in the opposite direction,
commission subtracted from proceeds, realized P&L recorded, position
deleted. -/
def execute_exit (s : State) (symbol : String) (price : ℚ) (reason : String) :
    State :=
  match pos_lookup symbol s.positions with
  | none => s
  | some position =>
      let shares := position.shares
      let entry_price := position.entry_price
      let execution_price := price * (1 - s.slippage_bps)
      let proceeds := (shares : ℚ) * execution_price
      let commission_cost := (shares : ℚ) * s.commission
      let net_proceeds := proceeds - commission_cost
      let pnl := net_proceeds - (shares : ℚ) * entry_price
      let pnl_pct := pnl / ((shares : ℚ) * entry_price) * 100
      { s with
        cash := s.cash + net_proceeds
        positions := pos_erase symbol s.positions
        trades := s.trades ++
          [{ symbol := symbol, ttype := TradeType.EXIT, shares := shares
             price := execution_price, amount := net_proceeds
             pnl := some pnl, pnl_pct := some pnl_pct
             reason := some reason
             date := (s.dates.getLast?).getD 0 }] }

/-- Exit-signal dict returned by the strategy should_exit callback. -/
structure ExitSignal where
  exit : Bool
  reason : String
  deriving Repr, DecidableEq

/-- Entry-decision dict returned by the strategy should_enter callback, after the
numeric coercion of `position_size` done by the run loop (lines 109-113). -/
structure EntryDecision where
  enter : Bool
  position_size : ℚ
  deriving Repr, DecidableEq

/-- The strategy object as the run loop consumes it: both callbacks see
the price history up to and including the current bar (`df.loc[:date]`);
should_exit additionally sees the open position. -/
structure Strategy where
  should_exit : List Bar → Position → ExitSignal
  should_enter : List Bar → EntryDecision

/-- Loop body of Backtester.run_backtest for one bar: append the date,
record equity at the bar close (pushing it into the drawdown controller
and the exposure manager), then check exit on an open position, then
check entry when no position is open. -/
def process_bar (strategy : Strategy) (symbol : String) (hist : List Bar)
    (bar : Bar) (s : State) : State :=
  let s := { s with dates := s.dates ++ [bar.date] }
  let current_price := bar.close
  let equity := calculate_equity s current_price
  let s :=
    { s with
      equity_curve := s.equity_curve ++ [equity]
      drawdown := DrawdownController.update_equity s.drawdown equity
      exposure := ExposureManager.update_account_value s.exposure equity }
  let s :=
    match pos_lookup symbol s.positions with
    | some position =>
        let exit_signal := strategy.should_exit hist position
        if exit_signal.exit then
          execute_exit s symbol current_price exit_signal.reason
        else s
    | none => s
  match pos_lookup symbol s.positions with
  | some _ => s
  | none =>
      let entry_decision := strategy.should_enter hist
      if entry_decision.enter then
        if entry_decision.position_size > 0 then
          execute_entry s symbol current_price entry_decision.position_size
        else s
      else s

/-- Bar loop: feed each bar to `process_bar` together with the history
prefix ending at that bar. -/
def run_bars (strategy : Strategy) (symbol : String) (processed : List Bar) :
    List Bar → State → State
  | [], s => s
  | bar :: rest, s =>
      run_bars strategy symbol (processed ++ [bar]) rest
        (process_bar strategy symbol (processed ++ [bar]) bar s)

/-- Backtester.run_backtest on an already-fetched, already-filtered bar
series: reset run state, iterate the bars chronologically, then
force-close any open position at the final close. -/
def run_backtest (s : State) (strategy : Strategy) (symbol : String)
    (bars : List Bar) : State :=
  let s :=
    { s with
      cash := s.initial_capital
      positions := []
      trades := []
      equity_curve := [s.initial_capital]
      dates := [] }
  let s := run_bars strategy symbol [] bars s
  match pos_lookup symbol s.positions with
  | some _ =>
      let final_price := ((bars.map Bar.close).getLast?).getD 0
      execute_exit s symbol final_price "End of backtest"
  | none => s

end Backtester

section Helpers

/-- A left fold that only accumulates additions equals the start value
plus the sum of the mapped list (the loop-accumulation shape of both
`_calculate_equity` implementations). -/
theorem foldl_add_eq_add_sum {α : Type} (f : α → ℚ) :
    ∀ (l : List α) (c : ℚ),
      l.foldl (fun acc x => acc + f x) c = c + (l.map f).sum := by
  intro l
  induction l with
  | nil => intro c; simp
  | cons x xs ih =>
      intro c
      simp [List.foldl_cons, ih, add_assoc]

/-- Appending one element determines the last element of a list. -/
theorem getLast?_append_singleton {α : Type} (l : List α) (a : α) :
    (l ++ [a]).getLast? = some a := by
  induction l with
  | nil => rfl
  | cons x xs ih =>
      cases xs with
      | nil => rfl
      | cons y ys => simpa using ih

/-- Looking up a key just appended to a list that did not contain it. -/
theorem pos_lookup_append_self {α : Type} (sym : String) (v : α) :
    ∀ (l : List (String × α)), pos_lookup sym l = none →
      pos_lookup sym (l ++ [(sym, v)]) = some v := by
  intro l
  induction l with
  | nil => intro _; simp [pos_lookup]
  | cons kv rest ih =>
      intro h
      by_cases hk : kv.1 = sym
      · simp [pos_lookup, hk] at h
      · simp [pos_lookup, hk] at h ⊢
        exact ih h

/-- Erasing a key removes it from lookup. -/
theorem pos_lookup_erase_self {α : Type} (sym : String) :
    ∀ (l : List (String × α)), pos_lookup sym (pos_erase sym l) = none := by
  intro l
  induction l with
  | nil => rfl
  | cons kv rest ih =>
      by_cases hk : kv.1 = sym
      · simpa [pos_erase, hk] using ih
      · simpa [pos_erase, pos_lookup, hk] using ih

end Helpers

/-- C5: with `require_all_layers=False`, should_enter enters exactly when
at least 4 of the 6 layer checks pass — in particular it enters on every
input with exactly 4 passing checks and never on exactly 3 — and with
`require_all_layers=True` it enters exactly when all six checks pass. -/
theorem quorum_entry_decision (c : BaseStrategy.LayerChecks) (sz : ℚ) :
    ((BaseStrategy.should_enter false c sz).enter = true ↔
        4 ≤ BaseStrategy.passed_count c)
    ∧ (BaseStrategy.passed_count c = 4 →
        (BaseStrategy.should_enter false c sz).enter = true)
    ∧ (BaseStrategy.passed_count c = 3 →
        (BaseStrategy.should_enter false c sz).enter = false)
    ∧ ((BaseStrategy.should_enter true c sz).enter = true ↔
        (c.regime = true ∧ c.fundamentals = true ∧ c.sentiment = true ∧
          c.intermarket = true ∧ c.technical = true ∧ c.risk = true)) := by
  have he : ∀ b, (BaseStrategy.should_enter b c sz).enter =
      BaseStrategy.enter_decision b c := fun _ => rfl
  simp only [he]
  clear he
  obtain ⟨r, f, se, i, t, k⟩ := c
  cases r <;> cases f <;> cases se <;> cases i <;> cases t <;> cases k <;>
    decide

/-- Demonstration input for the quorum gate: exactly 4 passing layers. -/
def quorum_demo : BaseStrategy.LayerChecks :=
  { regime := true, fundamentals := true, sentiment := false
    intermarket := false, technical := true, risk := true }

/-- Witness for the C5 theorem at a concrete 4-of-6 input. -/
theorem quorum_entry_decision_witness :
    BaseStrategy.passed_count quorum_demo = 4 ∧
      (BaseStrategy.should_enter false quorum_demo 100).enter = true :=
  ⟨by decide, (quorum_entry_decision quorum_demo 100).2.1 (by decide)⟩

/-- C10: initialize_account resets cash (to the effective capital),
positions, orders, trades and the exposure-manager account value, while
the entire drawdown-controller state — equity curve, running peak and
kill-switch flag — is carried over unchanged. -/
theorem init_account_frame (s : PaperTrader.State) (ic : Option ℚ) :
    (PaperTrader.init_account s ic).drawdown = s.drawdown
    ∧ (PaperTrader.init_account s ic).positions = []
    ∧ (PaperTrader.init_account s ic).orders = []
    ∧ (PaperTrader.init_account s ic).trades = []
    ∧ (PaperTrader.init_account s ic).cash =
        (PaperTrader.init_account s ic).initial_capital
    ∧ (PaperTrader.init_account s ic).exposure.account_value =
        (PaperTrader.init_account s ic).initial_capital := by
  cases ic with
  | none =>
      simp [PaperTrader.init_account, ExposureManager.update_account_value]
  | some c =>
      by_cases hc : c = 0 <;>
        simp [PaperTrader.init_account, ExposureManager.update_account_value, hc]

/-- C4: once the kill switch is active it stays active across any
sequence of update_equity calls and activation attempts (arbitrary equity
values, including recoveries above every threshold); only the explicit
reset_kill_switch call clears it. -/
theorem kill_switch_sticky (s : DrawdownController.State)
    (evs : List DrawdownController.Event)
    (h : DrawdownController.is_kill_switch_active s = true) :
    DrawdownController.is_kill_switch_active
        (DrawdownController.apply_events evs s) = true
    ∧ DrawdownController.is_kill_switch_active
        (DrawdownController.reset_kill_switch s) = false := by
  refine ⟨?_, rfl⟩
  induction evs generalizing s with
  | nil => exact h
  | cons e rest ih =>
      apply ih
      cases e with
      | update eq =>
          simpa [DrawdownController.apply_events, DrawdownController.apply_event,
            DrawdownController.update_equity,
            DrawdownController.is_kill_switch_active] using h
      | activate =>
          simp only [DrawdownController.apply_event,
            DrawdownController.activate_kill_switch,
            DrawdownController.is_kill_switch_active] at h ⊢
          split
          · exact h
          · split
            · rfl
            · exact h

/-- Controller state whose kill switch is on after a 21% drawdown. -/
def dd_active_demo : DrawdownController.State :=
  { DrawdownController.init with
      equity_curve := [100, 79], peak_equity := some 100
      kill_switch_active := true }

/-- Witness for the C4 theorem: the switch survives an equity recovery to
a fresh all-time high followed by another activation attempt. -/
theorem kill_switch_sticky_witness :
    DrawdownController.is_kill_switch_active dd_active_demo = true ∧
      DrawdownController.is_kill_switch_active
        (DrawdownController.apply_events
          [DrawdownController.Event.update 1000000,
           DrawdownController.Event.activate,
           DrawdownController.Event.update 50] dd_active_demo) = true :=
  ⟨rfl, (kill_switch_sticky dd_active_demo
      [DrawdownController.Event.update 1000000,
       DrawdownController.Event.activate,
       DrawdownController.Event.update 50] rfl).1⟩

/-- Controller with the default thresholds after the equity updates
100, 99 — a 1% drawdown. -/
def dd_unit_demo : DrawdownController.State :=
  DrawdownController.update_equity
    (DrawdownController.update_equity DrawdownController.init 100) 99

/-- C2 (code bug, unit mismatch): on the curve [100, 99] the current
drawdown as a decimal fraction is 1/100, well below the configured
`max_drawdown_pct = 15/100`, yet check_max_drawdown returns `false`
("exceeded"): the code compares `current_drawdown_pct`, which
calculate_drawdown scales by 100, against the threshold kept as a decimal
fraction, so the check trips at a 0.15% drawdown instead of 15%. -/
theorem check_max_drawdown_unit_mismatch :
    DrawdownController.check_max_drawdown dd_unit_demo = false
    ∧ |((99 : ℚ) - 100) / 100| ≤ dd_unit_demo.max_drawdown_pct := by
  constructor
  · norm_num [dd_unit_demo, DrawdownController.init,
      DrawdownController.update_equity, DrawdownController.check_max_drawdown,
      DrawdownController.calculate_drawdown,
      DrawdownController.calculate_drawdown_curve,
      DrawdownController.expanding_max, DrawdownController.expanding_max_from,
      List.zipWith]
    decide
  · rw [abs_le]
    constructor <;>
      norm_num [dd_unit_demo, DrawdownController.update_equity,
        DrawdownController.init]

/-- Paper trader demonstration account. -/
def pt_demo : PaperTrader.State := PaperTrader.mk 100000

/-- A market buy order for 10 shares. -/
def market_buy_demo : PaperTrader.Order :=
  { symbol := "AAPL", side := PaperTrader.Side.BUY, quantity := 10
    otype := PaperTrader.OrderType.MARKET, limit_price := none }

/-- C8 (code bug): an order whose quote price is 0 (the `.get` default
when the quote is absent) is not rejected as unpriceable — execute_order
fills the market buy at execution price 0 and opens a 10-share position
with entry price 0 (whose later P&L update divides by that entry price). -/
theorem zero_quote_fills_at_zero :
    (PaperTrader.execute_order pt_demo market_buy_demo 0).1.status
        = PaperTrader.Status.FILLED
    ∧ (PaperTrader.execute_order pt_demo market_buy_demo 0).1.execution_price
        = some 0
    ∧ pos_lookup "AAPL"
        (PaperTrader.execute_order pt_demo market_buy_demo 0).2.positions
        = some { shares := 10, entry_price := 0, current_price := none
                 unrealized_pnl := none, unrealized_pnl_pct := none } := by
  refine ⟨?_, ?_, ?_⟩ <;>
    norm_num [pt_demo, market_buy_demo, PaperTrader.mk,
      PaperTrader.execute_order, PaperTrader.execute_buy, pos_lookup]

/-- Loop-accumulated paper-trader equity as a closed-form sum. -/
theorem pt_calculate_equity_eq (s : PaperTrader.State) :
    PaperTrader.calculate_equity s
      = s.cash + (s.positions.map
          (fun kv => kv.2.shares * PaperTrader.mark kv.2)).sum := by
  simpa using foldl_add_eq_add_sum
    (fun kv : String × PaperTrader.Position => kv.2.shares * PaperTrader.mark kv.2)
    s.positions s.cash

/-- Loop-accumulated backtester equity as a closed-form sum. -/
theorem bt_calculate_equity_eq (s : Backtester.State) (cp : ℚ) :
    Backtester.calculate_equity s cp
      = s.cash + (s.positions.map
          (fun kv => (kv.2.shares : ℚ) * cp)).sum := by
  simpa using foldl_add_eq_add_sum
    (fun kv : String × Backtester.Position => (kv.2.shares : ℚ) * cp)
    s.positions s.cash

/-- process_market_data appends exactly one equity report — the equity of
the post-update state — to the controller curve. -/
theorem pmd_curve (s : PaperTrader.State) (symbol : String) (price : ℚ) :
    (PaperTrader.process_market_data s symbol price).drawdown.equity_curve
      = s.drawdown.equity_curve
        ++ [PaperTrader.calculate_equity
              (PaperTrader.process_market_data s symbol price)] := by
  unfold PaperTrader.process_market_data
  by_cases h : (pos_lookup symbol s.positions).isSome
  · simp only [h, if_true]
    unfold PaperTrader.update_position_pnl
    cases hp : pos_lookup symbol s.positions with
    | none =>
        simp only [DrawdownController.update_equity]
        rfl
    | some pos =>
        simp only [DrawdownController.update_equity]
        rfl
  · simp only [h, Bool.false_eq_true, if_false]
    simp only [DrawdownController.update_equity]
    rfl

/-- Backtester entries never touch the equity curve. -/
theorem execute_entry_equity_curve (s : Backtester.State) (symbol : String)
    (price position_size : ℚ) :
    (Backtester.execute_entry s symbol price position_size).equity_curve
      = s.equity_curve := by
  unfold Backtester.execute_entry
  dsimp only
  split <;> rfl

/-- Backtester exits never touch the equity curve. -/
theorem execute_exit_equity_curve (s : Backtester.State) (symbol : String)
    (price : ℚ) (reason : String) :
    (Backtester.execute_exit s symbol price reason).equity_curve
      = s.equity_curve := by
  unfold Backtester.execute_exit
  cases pos_lookup symbol s.positions <;> rfl

/-- Each processed bar appends exactly one equity report — the equity of
the pre-trade state marked at the bar close — to the equity curve. -/
theorem process_bar_equity_curve (strategy : Backtester.Strategy)
    (symbol : String) (hist : List Backtester.Bar) (bar : Backtester.Bar)
    (s : Backtester.State) :
    (Backtester.process_bar strategy symbol hist bar s).equity_curve
      = s.equity_curve ++ [Backtester.calculate_equity s bar.close] := by
  unfold Backtester.process_bar
  dsimp only
  repeat
    first
      | rfl
      | rw [execute_entry_equity_curve]
      | rw [execute_exit_equity_curve]
      | split

/-- C1: the equity reported after each event is cash plus the sum over
open positions of shares times the mark price.  Paper trader: after any
process_market_data event, the equity just appended to the drawdown
controller equals the resulting cash plus shares times the stored
`current_price` mark (defaulting to `entry_price`) summed over the
resulting positions.  Backtester: the equity appended on a bar equals
cash plus shares times the current bar close, summed over the open
positions at the moment of the report. -/
theorem equity_report_is_cash_plus_marks :
    (∀ (s : PaperTrader.State) (symbol : String) (price : ℚ),
      ((PaperTrader.process_market_data s symbol price).drawdown.equity_curve).getLast?
        = some ((PaperTrader.process_market_data s symbol price).cash
            + (((PaperTrader.process_market_data s symbol price).positions).map
                (fun kv => kv.2.shares * PaperTrader.mark kv.2)).sum))
    ∧ (∀ (strategy : Backtester.Strategy) (symbol : String)
        (hist : List Backtester.Bar) (bar : Backtester.Bar)
        (s : Backtester.State),
      ((Backtester.process_bar strategy symbol hist bar s).equity_curve).getLast?
        = some (s.cash
            + (s.positions.map (fun kv => (kv.2.shares : ℚ) * bar.close)).sum)) := by
  constructor
  · intro s symbol price
    rw [pmd_curve, getLast?_append_singleton]
    exact congrArg some (pt_calculate_equity_eq _)
  · intro strategy symbol hist bar s
    rw [process_bar_equity_curve, getLast?_append_singleton]
    exact congrArg some (bt_calculate_equity_eq s bar.close)

/-- A rejected buy leaves the paper-trader state untouched. -/
theorem execute_buy_rejected_frame (s : PaperTrader.State) (symbol : String)
    (quantity price : ℚ)
    (h : (PaperTrader.execute_buy s symbol quantity price).1.status
        = PaperTrader.Status.REJECTED) :
    (PaperTrader.execute_buy s symbol quantity price).2 = s := by
  unfold PaperTrader.execute_buy at h ⊢
  dsimp only at h ⊢
  by_cases hc : quantity * price > s.cash
  · rw [if_pos hc]
  · rw [if_neg hc] at h
    exact PaperTrader.Status.noConfusion h

/-- A rejected sell leaves the paper-trader state untouched. -/
theorem execute_sell_rejected_frame (s : PaperTrader.State) (symbol : String)
    (quantity price : ℚ)
    (h : (PaperTrader.execute_sell s symbol quantity price).1.status
        = PaperTrader.Status.REJECTED) :
    (PaperTrader.execute_sell s symbol quantity price).2 = s := by
  unfold PaperTrader.execute_sell at h ⊢
  cases hp : pos_lookup symbol s.positions with
  | none => rfl
  | some pos =>
      rw [hp] at h
      dsimp only at h ⊢
      by_cases hq : quantity > pos.shares
      · rw [if_pos hq]
      · rw [if_neg hq] at h
        exact PaperTrader.Status.noConfusion h

/-- C7: every rejection is atomic.  Paper trader: whenever execute_order
returns status REJECTED — insufficient cash, insufficient shares, no
position, limit not met, or unsupported order type — the returned state
is exactly the input state (cash, positions, orders, trades all
unchanged) and the rejection is a structured result of the total
function.  Backtester: when the entry cost including commission exceeds
cash, _execute_entry returns the state unchanged (silent no-op). -/
theorem rejected_order_atomicity :
    (∀ (s : PaperTrader.State) (o : PaperTrader.Order) (current_price : ℚ),
      (PaperTrader.execute_order s o current_price).1.status
          = PaperTrader.Status.REJECTED →
      (PaperTrader.execute_order s o current_price).2 = s)
    ∧ (∀ (s : Backtester.State) (symbol : String) (price position_size : ℚ),
        (PositionSizer.calculate_shares (price * (1 + s.slippage_bps)) position_size : ℚ)
              * (price * (1 + s.slippage_bps))
            + (PositionSizer.calculate_shares (price * (1 + s.slippage_bps)) position_size : ℚ)
              * s.commission > s.cash →
        Backtester.execute_entry s symbol price position_size = s) := by
  constructor
  · intro s o current_price h
    unfold PaperTrader.execute_order at h ⊢
    cases ht : o.otype with
    | MARKET =>
        rw [ht] at h
        dsimp only at h ⊢
        cases hs : o.side with
        | BUY =>
            rw [hs] at h
            dsimp only at h ⊢
            exact execute_buy_rejected_frame s o.symbol o.quantity current_price h
        | SELL =>
            rw [hs] at h
            dsimp only at h ⊢
            exact execute_sell_rejected_frame s o.symbol o.quantity current_price h
    | LIMIT =>
        rw [ht] at h
        dsimp only at h ⊢
        cases hs : o.side with
        | BUY =>
            rw [hs] at h
            dsimp only at h ⊢
            by_cases hc : current_price ≤ o.limit_price.getD current_price
            · rw [if_pos hc] at h ⊢
              exact execute_buy_rejected_frame s o.symbol o.quantity _ h
            · rw [if_neg hc]
        | SELL =>
            rw [hs] at h
            dsimp only at h ⊢
            by_cases hc : current_price ≥ o.limit_price.getD current_price
            · rw [if_pos hc] at h ⊢
              exact execute_sell_rejected_frame s o.symbol o.quantity _ h
            · rw [if_neg hc]
    | OTHER =>
        rfl
  · intro s symbol price position_size h
    unfold Backtester.execute_entry
    dsimp only
    rw [if_pos h]

/-- Backtester with no capital at all. -/
def bt_poor_demo : Backtester.State := Backtester.mk 0 0 0

/-- An order with an unsupported type string. -/
def other_order_demo : PaperTrader.Order :=
  { symbol := "AAPL", side := PaperTrader.Side.BUY, quantity := 5
    otype := PaperTrader.OrderType.OTHER, limit_price := none }

/-- Witness for the C7 theorem: an unsupported-type rejection leaves the
paper trader unchanged, and an unaffordable entry leaves the backtester
unchanged. -/
theorem rejected_order_atomicity_witness :
    (PaperTrader.execute_order pt_demo other_order_demo 10).1.status
        = PaperTrader.Status.REJECTED
    ∧ (PaperTrader.execute_order pt_demo other_order_demo 10).2 = pt_demo
    ∧ Backtester.execute_entry bt_poor_demo "XYZ" 10 100 = bt_poor_demo :=
  ⟨rfl,
   rejected_order_atomicity.1 pt_demo other_order_demo 10 rfl,
   rejected_order_atomicity.2 bt_poor_demo "XYZ" 10 100 (by
     norm_num [bt_poor_demo, Backtester.mk, PositionSizer.calculate_shares,
       truncToward0])⟩

/-- A limit BUY order for 10 shares at limit price 50. -/
def limit_buy_50 : PaperTrader.Order :=
  { symbol := "XYZ", side := PaperTrader.Side.BUY, quantity := 10
    otype := PaperTrader.OrderType.LIMIT, limit_price := some 50 }

/-- Paper trader with only 100 of cash. -/
def pt_small_demo : PaperTrader.State := PaperTrader.mk 100

/-- C6 counterexample: with market price 49 and limit 50 the favorable
crossing holds (49 ≤ 50), yet the order is not FILLED — it is rejected
for insufficient cash — so "a BUY fills if and only if the market price
is ≤ the limit price" is false as stated. -/
theorem limit_fill_iff_refuted :
    (49 : ℚ) ≤ 50
    ∧ (PaperTrader.execute_order pt_small_demo limit_buy_50 49).1.status
        ≠ PaperTrader.Status.FILLED
    ∧ (PaperTrader.execute_order pt_small_demo limit_buy_50 49).1.reason
        = some "Insufficient cash" := by
  refine ⟨by norm_num, ?_, ?_⟩
  · norm_num [pt_small_demo, limit_buy_50, PaperTrader.mk,
      PaperTrader.execute_order, PaperTrader.execute_buy, pos_lookup]
    decide
  · norm_num [pt_small_demo, limit_buy_50, PaperTrader.mk,
      PaperTrader.execute_order, PaperTrader.execute_buy, pos_lookup]

/-- C6 amended: for a LIMIT order, a BUY fills exactly when the market
price is ≤ the limit price and the cost at the limit price is within
cash; a SELL fills exactly when the market price is ≥ the limit price
and an open position holds at least the ordered quantity; every fill
executes at the limit price (not the market price); and when the limit
is not crossed the order returns REJECTED with reason "Limit price not
met" and the state is unchanged. -/
theorem limit_order_fill_rules (s : PaperTrader.State) (o : PaperTrader.Order)
    (current_price lp : ℚ) (ht : o.otype = PaperTrader.OrderType.LIMIT)
    (hl : o.limit_price = some lp) :
    (o.side = PaperTrader.Side.BUY →
      ((PaperTrader.execute_order s o current_price).1.status
            = PaperTrader.Status.FILLED
          ↔ (current_price ≤ lp ∧ o.quantity * lp ≤ s.cash))
      ∧ ((PaperTrader.execute_order s o current_price).1.status
            = PaperTrader.Status.FILLED →
          (PaperTrader.execute_order s o current_price).1.execution_price
            = some lp)
      ∧ (¬ current_price ≤ lp →
          (PaperTrader.execute_order s o current_price)
            = ({ status := PaperTrader.Status.REJECTED
                 reason := some "Limit price not met"
                 execution_price := none, pnl := none }, s)))
    ∧ (o.side = PaperTrader.Side.SELL →
      ((PaperTrader.execute_order s o current_price).1.status
            = PaperTrader.Status.FILLED
          ↔ (lp ≤ current_price ∧ ∃ pos,
                pos_lookup o.symbol s.positions = some pos
                ∧ o.quantity ≤ pos.shares))
      ∧ ((PaperTrader.execute_order s o current_price).1.status
            = PaperTrader.Status.FILLED →
          (PaperTrader.execute_order s o current_price).1.execution_price
            = some lp)
      ∧ (¬ lp ≤ current_price →
          (PaperTrader.execute_order s o current_price)
            = ({ status := PaperTrader.Status.REJECTED
                 reason := some "Limit price not met"
                 execution_price := none, pnl := none }, s))) := by
  unfold PaperTrader.execute_order
  rw [ht]
  dsimp only
  rw [hl]
  dsimp only [Option.getD]
  constructor
  · intro hs
    rw [hs]
    dsimp only
    by_cases hc : current_price ≤ lp
    · rw [if_pos hc]
      unfold PaperTrader.execute_buy
      dsimp only
      by_cases hcash : o.quantity * lp > s.cash
      · rw [if_pos hcash]
        refine ⟨?_, ?_, ?_⟩
        · constructor
          · intro hF; exact PaperTrader.Status.noConfusion hF
          · intro hrhs; exact absurd hrhs.2 (not_le.mpr hcash)
        · intro hF; exact PaperTrader.Status.noConfusion hF
        · intro hnc; exact absurd hc hnc
      · rw [if_neg hcash]
        refine ⟨?_, ?_, ?_⟩
        · exact ⟨fun _ => ⟨hc, not_lt.mp hcash⟩, fun _ => rfl⟩
        · intro _; rfl
        · intro hnc; exact absurd hc hnc
    · rw [if_neg hc]
      refine ⟨?_, ?_, ?_⟩
      · constructor
        · intro hF; exact PaperTrader.Status.noConfusion hF
        · intro hrhs; exact absurd hrhs.1 hc
      · intro hF; exact PaperTrader.Status.noConfusion hF
      · intro _; rfl
  · intro hs
    rw [hs]
    dsimp only
    by_cases hc : current_price ≥ lp
    · rw [if_pos hc]
      unfold PaperTrader.execute_sell
      cases hp : pos_lookup o.symbol s.positions with
      | none =>
          dsimp only
          refine ⟨?_, ?_, ?_⟩
          · constructor
            · intro hF; exact PaperTrader.Status.noConfusion hF
            · rintro ⟨-, pos, hpos, -⟩
              exact Option.noConfusion hpos
          · intro hF; exact PaperTrader.Status.noConfusion hF
          · intro hnc; exact absurd hc hnc
      | some pos =>
          dsimp only
          by_cases hq : o.quantity > pos.shares
          · rw [if_pos hq]
            refine ⟨?_, ?_, ?_⟩
            · constructor
              · intro hF; exact PaperTrader.Status.noConfusion hF
              · rintro ⟨-, pos2, hpos2, hq2⟩
                cases hpos2
                exact absurd hq (not_lt.mpr hq2)
            · intro hF; exact PaperTrader.Status.noConfusion hF
            · intro hnc; exact absurd hc hnc
          · rw [if_neg hq]
            refine ⟨?_, ?_, ?_⟩
            · exact ⟨fun _ => ⟨hc, pos, rfl, not_lt.mp hq⟩, fun _ => rfl⟩
            · intro _; rfl
            · intro hnc; exact absurd hc hnc
    · rw [if_neg hc]
      refine ⟨?_, ?_, ?_⟩
      · constructor
        · intro hF; exact PaperTrader.Status.noConfusion hF
        · intro hrhs; exact absurd hrhs.1 hc
      · intro hF; exact PaperTrader.Status.noConfusion hF
      · intro _; rfl

/-- Witness for the amended C6 theorem: market 49, limit 50, ample cash
— the order fills. -/
theorem limit_order_fill_rules_witness :
    (PaperTrader.execute_order (PaperTrader.mk 10000) limit_buy_50 49).1.status
      = PaperTrader.Status.FILLED :=
  ((limit_order_fill_rules (PaperTrader.mk 10000) limit_buy_50 49 50 rfl rfl).1
      rfl).1.mpr
    ⟨by norm_num, by norm_num [limit_buy_50, PaperTrader.mk]⟩

/-- C9: with zero slippage and zero commission, a buy of q shares at
price p followed immediately by a sell of the same q shares at the same
price records a pnl of exactly 0 and restores cash to its pre-entry
value exactly.  Paper trader: the buy/sell pair on a fresh symbol with
affordable cost.  Backtester: an affordable entry followed by an exit at
the same price, with the slippage and commission knobs at 0. -/
theorem roundtrip_zero_pnl :
    (∀ (s : PaperTrader.State) (symbol : String) (q p : ℚ),
      pos_lookup symbol s.positions = none →
      q * p ≤ s.cash →
      (PaperTrader.execute_sell
          (PaperTrader.execute_buy s symbol q p).2 symbol q p).1.pnl = some 0
      ∧ (PaperTrader.execute_sell
          (PaperTrader.execute_buy s symbol q p).2 symbol q p).2.cash = s.cash)
    ∧ (∀ (s : Backtester.State) (symbol : String) (price position_size : ℚ)
        (reason : String),
        s.slippage_bps = 0 → s.commission = 0 →
        pos_lookup symbol s.positions = none →
        (PositionSizer.calculate_shares price position_size : ℚ) * price ≤ s.cash →
        ((Backtester.execute_exit
            (Backtester.execute_entry s symbol price position_size)
            symbol price reason).trades.getLast?).map Backtester.TradeRec.pnl
          = some (some 0)
        ∧ (Backtester.execute_exit
            (Backtester.execute_entry s symbol price position_size)
            symbol price reason).cash = s.cash) := by
  constructor
  · intro s symbol q p hnone hcash
    have hngt : ¬ q * p > s.cash := not_lt.mpr hcash
    unfold PaperTrader.execute_buy
    dsimp only
    rw [hnone, if_neg hngt]
    dsimp only
    unfold PaperTrader.execute_sell
    dsimp only
    rw [pos_lookup_append_self symbol _ s.positions hnone]
    dsimp only
    rw [if_neg (lt_irrefl q)]
    dsimp only
    constructor
    · norm_num
    · ring
  · intro s symbol price position_size reason h0 hcomm hnone hcost
    have hep : price * (1 + s.slippage_bps) = price := by rw [h0]; ring
    unfold Backtester.execute_entry
    dsimp only
    rw [hep, hcomm, hnone]
    have hcond : ¬ ((PositionSizer.calculate_shares price position_size : ℚ)
        * price + (PositionSizer.calculate_shares price position_size : ℚ) * 0
          > s.cash) := by
      simpa using not_lt.mpr hcost
    rw [if_neg hcond]
    dsimp only
    unfold Backtester.execute_exit
    dsimp only
    rw [pos_lookup_append_self symbol _ s.positions hnone]
    dsimp only
    rw [h0]
    constructor
    · rw [getLast?_append_singleton]
      norm_num
    · ring

/-- Backtester with zero commission and zero slippage. -/
def bt_zero_demo : Backtester.State := Backtester.mk 100000 0 0

/-- Witness for the C9 theorem: a 10-share round trip at price 50 in
the paper trader, and a 1000-dollar round trip at price 50 in the
backtester. -/
theorem roundtrip_zero_pnl_witness :
    (PaperTrader.execute_sell
        (PaperTrader.execute_buy pt_demo "TCS" 10 50).2 "TCS" 10 50).1.pnl
      = some 0
    ∧ (PaperTrader.execute_sell
        (PaperTrader.execute_buy pt_demo "TCS" 10 50).2 "TCS" 10 50).2.cash
      = pt_demo.cash
    ∧ (Backtester.execute_exit
        (Backtester.execute_entry bt_zero_demo "TCS" 50 1000)
        "TCS" 50 "end").cash = bt_zero_demo.cash := by
  refine ⟨?_, ?_, ?_⟩
  · exact (roundtrip_zero_pnl.1 pt_demo "TCS" 10 50 rfl
      (by norm_num [pt_demo, PaperTrader.mk])).1
  · exact (roundtrip_zero_pnl.1 pt_demo "TCS" 10 50 rfl
      (by norm_num [pt_demo, PaperTrader.mk])).2
  · exact (roundtrip_zero_pnl.2 bt_zero_demo "TCS" 50 1000 "end"
      (by norm_num [bt_zero_demo, Backtester.mk]) rfl rfl
      (by norm_num [bt_zero_demo, Backtester.mk,
        PositionSizer.calculate_shares, truncToward0])).2

/-- Strategy that always signals exit and always signals entry with a
positive 100-dollar size. -/
def demo_strategy : Backtester.Strategy :=
  { should_exit := fun _ _ => { exit := true, reason := "signal" }
    should_enter := fun _ => { enter := true, position_size := 100 } }

/-- Two bars at a constant close of 10. -/
def demo_bars : List Backtester.Bar :=
  [{ date := 0, close := 10 }, { date := 1, close := 10 }]

/-- Backtester for the two-bar run: capital 1000, no frictions. -/
def bt_run_demo : Backtester.State := Backtester.mk 1000 0 0

/-- C3 counterexample: running the backtest over two bars with an
always-exit/always-enter strategy produces the trade sequence
ENTRY@bar0, EXIT@bar1, ENTRY@bar1, EXIT@bar1 — the position exited on
bar 1 is re-entered on the same bar 1, because the entry check runs
after the exit on the same bar and only tests that the symbol is not
currently in the positions map. -/
theorem same_bar_reentry_refuted :
    ((Backtester.run_backtest bt_run_demo demo_strategy "TCS" demo_bars).trades.map
        (fun t => (t.ttype, t.date)))
      = [(Backtester.TradeType.ENTRY, 0), (Backtester.TradeType.EXIT, 1),
         (Backtester.TradeType.ENTRY, 1), (Backtester.TradeType.EXIT, 1)] := by
  norm_num [bt_run_demo, demo_strategy, demo_bars, Backtester.mk,
    Backtester.run_backtest, Backtester.run_bars, Backtester.process_bar,
    Backtester.execute_entry, Backtester.execute_exit,
    Backtester.calculate_equity, DrawdownController.update_equity,
    ExposureManager.update_account_value, pos_lookup, pos_erase,
    PositionSizer.calculate_shares, truncToward0]

/-- C3 amended: when the open position is exited on bar i and the
strategy also signals entry on bar i (with a positive, affordable size),
the backtester executes a new entry for the symbol on the same bar i —
the bar appends an EXIT trade and then an ENTRY trade, both dated bar i.
A closed position is therefore eligible for re-entry immediately, not
only from the next bar. -/
theorem same_bar_exit_then_reentry (strategy : Backtester.Strategy)
    (symbol : String) (hist : List Backtester.Bar) (bar : Backtester.Bar)
    (s : Backtester.State) (pos : Backtester.Position)
    (hpos : pos_lookup symbol s.positions = some pos)
    (hexit : (strategy.should_exit hist pos).exit = true)
    (henter : (strategy.should_enter hist).enter = true)
    (hsize : (strategy.should_enter hist).position_size > 0)
    (hafford : ¬ ((PositionSizer.calculate_shares
            (bar.close * (1 + s.slippage_bps))
            (strategy.should_enter hist).position_size : ℚ)
          * (bar.close * (1 + s.slippage_bps))
        + (PositionSizer.calculate_shares
            (bar.close * (1 + s.slippage_bps))
            (strategy.should_enter hist).position_size : ℚ) * s.commission
        > s.cash + ((pos.shares : ℚ) * (bar.close * (1 - s.slippage_bps))
            - (pos.shares : ℚ) * s.commission))) :
    ((Backtester.process_bar strategy symbol hist bar s).trades.drop
        s.trades.length).map (fun t => (t.ttype, t.date))
      = [(Backtester.TradeType.EXIT, bar.date),
         (Backtester.TradeType.ENTRY, bar.date)] := by
  unfold Backtester.process_bar
  dsimp only
  rw [hpos]
  dsimp only
  rw [if_pos hexit]
  unfold Backtester.execute_exit
  dsimp only
  rw [hpos]
  dsimp only
  rw [pos_lookup_erase_self]
  dsimp only
  rw [if_pos henter, if_pos hsize]
  unfold Backtester.execute_entry
  dsimp only
  rw [if_neg hafford]
  dsimp only
  rw [getLast?_append_singleton, List.append_assoc, List.drop_left]
  rfl

/-- Backtester state holding an open 10-share position at entry 10. -/
def bt_mid_demo : Backtester.State :=
  { initial_capital := 1000, commission := 0, slippage_bps := 0
    cash := 900
    positions := [("TCS", { shares := 10, entry_price := 10, entry_date := 0 })]
    trades := [], equity_curve := [1000, 1000], dates := [0]
    drawdown := DrawdownController.init, exposure := { account_value := 1000 } }

/-- Witness for the amended C3 theorem at the concrete mid-run state. -/
theorem same_bar_exit_then_reentry_witness :
    ((Backtester.process_bar demo_strategy "TCS" demo_bars
        { date := 1, close := 10 } bt_mid_demo).trades.drop
        bt_mid_demo.trades.length).map (fun t => (t.ttype, t.date))
      = [(Backtester.TradeType.EXIT, 1), (Backtester.TradeType.ENTRY, 1)] :=
  same_bar_exit_then_reentry demo_strategy "TCS" demo_bars
    { date := 1, close := 10 } bt_mid_demo
    { shares := 10, entry_price := 10, entry_date := 0 }
    rfl rfl rfl (by norm_num [demo_strategy])
    (by norm_num [bt_mid_demo, demo_strategy,
      PositionSizer.calculate_shares, truncToward0])
